import Mathlib

/-!
Shallow embedding of src/examples/irq_latency/vmm.c (libvmm irq_latency
example VMM) and proofs about its boot orchestration (`init`), interrupt
forwarding (`notified`), and fault handling (`fault`) entry points.

External collaborators (linux_setup_images, virq_controller_init,
virq_register, virq_inject, fault_handle, microkit_irq_ack, guest_start,
the LOG macros and printf) are black boxes: their return values are
oracle parameters of the embedded functions, and every call the code
makes to one of them is recorded, in program order, as an `Event` in the
returned trace.  The static `uint64_t count` is threaded explicitly and
arithmetic on it is taken modulo 2^64.
-/

namespace Vmm

/-- Configuration constants from vmm.c. -/
def GUEST_RAM_SIZE : Nat := 0x10000000

def GUEST_DTB_VADDR : Nat := 0x4f000000

def GUEST_INIT_RAM_DISK_VADDR : Nat := 0x4d000000

def SERIAL_IRQ_CH : Nat := 1

def SERIAL_IRQ : Nat := 33

/-- External constant from the libvmm headers (not part of this file);
its concrete value is irrelevant to every property proved below, it is
only carried as the vcpu argument of the registration call. -/
def GUEST_BOOT_VCPU_ID : Nat := 0

/-- One observable action of the VMM: a log line or a call to an
external collaborator (with the oracle-provided return value recorded
alongside the call where the collaborator returns one). -/
inductive Event where
  | log (msg : String)
  | logErr (msg : String)
  | printf (msg : String)
  | linux_setup_images (ret : Nat)
  | irq_ack (ch : Nat)
  | virq_controller_init (ret : Bool)
  | virq_register (vcpu irq : Nat) (ret : Bool)
  | virq_inject (irq : Nat) (ret : Bool)
  | guest_start (pc dtb initrd : Nat)
  | fault_handle (ret : Bool)
deriving DecidableEq, Repr

/-- Number of physical-interrupt acknowledgments (microkit_irq_ack calls)
in a trace. -/
def countAck (evs : List Event) : Nat :=
  (evs.filter fun e => match e with | Event.irq_ack _ => true | _ => false).length

/-- Number of virtual-interrupt injection attempts (virq_inject calls)
in a trace. -/
def countInject (evs : List Event) : Nat :=
  (evs.filter fun e => match e with | Event.virq_inject _ _ => true | _ => false).length

/-- Number of error log lines (LOG_VMM_ERR calls) in a trace. -/
def countLogErr (evs : List Event) : Nat :=
  (evs.filter fun e => match e with | Event.logErr _ => true | _ => false).length

/-- Number of ordinary log lines (LOG_VMM calls) in a trace. -/
def countLog (evs : List Event) : Nat :=
  (evs.filter fun e => match e with | Event.log _ => true | _ => false).length

/-- Number of printf calls in a trace. -/
def countPrintf (evs : List Event) : Nat :=
  (evs.filter fun e => match e with | Event.printf _ => true | _ => false).length

/-- Number of virq_register calls in a trace. -/
def countRegister (evs : List Event) : Nat :=
  (evs.filter fun e => match e with | Event.virq_register _ _ _ => true | _ => false).length

/-- Number of virq_controller_init calls in a trace. -/
def countCtrlInit (evs : List Event) : Nat :=
  (evs.filter fun e => match e with | Event.virq_controller_init _ => true | _ => false).length

/-- Number of guest_start calls in a trace. -/
def countStart (evs : List Event) : Nat :=
  (evs.filter fun e => match e with | Event.guest_start _ _ _ => true | _ => false).length

/-- Guest state as observed by this core: Running iff guest_start was
called. -/
inductive GuestState where
  | Unstarted
  | Running
deriving DecidableEq, Repr

/-- The guest state after a boot trace: Running exactly when the trace
contains a guest_start call. -/
def guestStateAfter (evs : List Event) : GuestState :=
  if countStart evs == 0 then GuestState.Unstarted else GuestState.Running

/-- serial_ack from vmm.c: the acknowledgment callback registered with
the virtual interrupt controller; it acknowledges the serial IRQ channel
once (`microkit_irq_ack(SERIAL_IRQ_CH)`).  vcpu_id, irq and the cookie
are ignored by the body. -/
def serial_ack (vcpu_id : Nat) (irq : Int) (cookie : Unit) : List Event :=
  [Event.irq_ack SERIAL_IRQ_CH]

/-- init from vmm.c.  `kernel_pc` is the value returned by
linux_setup_images, `ctrl_ok` the value returned by
virq_controller_init, `reg_ok` the value returned by virq_register
(the code assigns it to `success` but never examines it).  The returned
list is the trace of log lines and collaborator calls, in program
order. -/
def init (kernel_pc : Nat) (ctrl_ok : Bool) (reg_ok : Bool) : List Event :=
  [Event.log "starting",
   Event.log "Initialise guest images",
   Event.linux_setup_images kernel_pc] ++
  if kernel_pc == 0 then
    [Event.logErr "Failed to initialise guest images"]
  else
    [Event.log "Initialising the virtual GIC driver",
     Event.virq_controller_init ctrl_ok] ++
    if ctrl_ok == false then
      [Event.logErr "Failed to initialise emulated interrupt controller"]
    else
      [Event.virq_register GUEST_BOOT_VCPU_ID SERIAL_IRQ reg_ok,
       Event.log "Acking interrupt",
       Event.irq_ack SERIAL_IRQ_CH,
       Event.log "Start Linux guest",
       Event.guest_start kernel_pc GUEST_DTB_VADDR GUEST_INIT_RAM_DISK_VADDR]

/-- notified from vmm.c.  `inject_ok` is the value returned by
virq_inject when it is called.  On the serial channel the handler logs,
attempts the injection, and logs a drop on failure; on any other
channel it prints the unexpected-channel message.  The body contains no
microkit_irq_ack call. -/
def notified (ch : Nat) (inject_ok : Bool) : List Event :=
  if ch == SERIAL_IRQ_CH then
    [Event.log "Notification received from SERIAL_IRQ_CH",
     Event.log "Injecting virq to SERIAL_IRQ",
     Event.virq_inject SERIAL_IRQ inject_ok] ++
    if inject_ok == false then
      [Event.logErr "IRQ dropped"]
    else
      []
  else
    [Event.printf "Unexpected channel"]

/-- seL4 message info: microkit_msginfo, modelled by its label and
count words. -/
structure Msginfo where
  label : Nat
  count : Nat
deriving DecidableEq, Repr

/-- microkit_msginfo_new. -/
def microkit_msginfo_new (label count : Nat) : Msginfo :=
  { label := label, count := count }

/-- Result of one call to fault: the new value of the static uint64_t
`count`, the emitted trace, the returned seL4_Bool, and the final value
of the caller-provided *reply_msginfo location. -/
structure FaultResult where
  count : Nat
  events : List Event
  ret : Bool
  reply : Msginfo
deriving DecidableEq, Repr

/-- fault from vmm.c.  `count` is the value of the static counter on
entry (a uint64_t, so the increment is taken mod 2^64), `handle_ok` the
value returned by fault_handle, and `reply0` the contents of the
caller-provided reply location on entry.  On success the reply location
is overwritten with microkit_msginfo_new 0 0 and seL4_True is returned;
on failure the reply location is left unchanged and seL4_False is
returned. -/
def fault (count : Nat) (handle_ok : Bool) (reply0 : Msginfo) : FaultResult :=
  let c := (count + 1) % 2 ^ 64
  let evs := (if c % 100000 == 0 then [Event.log "Handled faults"] else []) ++
    [Event.fault_handle handle_ok]
  if handle_ok then
    { count := c, events := evs, ret := true, reply := microkit_msginfo_new 0 0 }
  else
    { count := c, events := evs, ret := false, reply := reply0 }

/-- A sequence of consecutive fault invocations: starting from counter
value `c`, invoke fault once per element of `rets` (the successive
fault_handle verdicts).  Returns the final counter value and the total
number of liveness log lines (LOG_VMM calls) emitted. -/
def faultRun : Nat → List Bool → Nat × Nat
  | c, [] => (c, 0)
  | c, r :: rs =>
    let res := fault c r (microkit_msginfo_new 0 0)
    let rest := faultRun res.count rs
    (rest.1, countLog res.events + rest.2)

/-! ### Helper lemmas -/

/-- The counter after one fault call is the uint64 increment of the
counter on entry, for either verdict. -/
theorem fault_count (c : Nat) (r : Bool) (m : Msginfo) :
    (fault c r m).count = (c + 1) % 2 ^ 64 := by
  cases r <;> simp [fault]

/-- One fault call emits one liveness log line when the incremented
counter is a multiple of 100000 and none otherwise, for either
verdict. -/
theorem fault_countLog (c : Nat) (r : Bool) (m : Msginfo) :
    countLog (fault c r m).events =
      if (c + 1) % 2 ^ 64 % 100000 = 0 then 1 else 0 := by
  cases r <;> simp [fault, countLog] <;> split_ifs <;> simp [List.filter]

/-- Closed form for a run of consecutive fault calls that stays below
the uint64 wraparound: the counter advances by the length of the run and
the number of liveness log lines is the number of multiples of 100000
in the interval the counter traverses. -/
theorem faultRun_spec (rets : List Bool) :
    ∀ c : Nat, c + rets.length < 2 ^ 64 →
      faultRun c rets =
        (c + rets.length, (c + rets.length) / 100000 - c / 100000) := by
  induction rets with
  | nil =>
    intro c h
    simp [faultRun]
  | cons r rs ih =>
    intro c h
    have hlt : c + 1 < 2 ^ 64 := by
      simp only [List.length_cons] at h
      omega
    have hmod : (c + 1) % 2 ^ 64 = c + 1 := Nat.mod_eq_of_lt hlt
    have hrest := ih (c + 1) (by simp only [List.length_cons] at h; omega)
    simp only [faultRun, fault_count, fault_countLog, hmod, hrest,
      List.length_cons, Prod.mk.injEq]
    constructor
    · omega
    · by_cases hd : (c + 1) % 100000 = 0 <;> simp only [hd, if_true, if_false] <;> omega

/-! ### Claims -/

/-- C1 counterexample: on a serial-channel notification the handler
performs zero physical acknowledgments (the body of notified contains no
microkit_irq_ack call), not exactly one as claimed, whether the
injection succeeds or fails. -/
theorem notified_serial_no_ack_counterexample :
    countAck (notified SERIAL_IRQ_CH true) = 0 ∧
    countAck (notified SERIAL_IRQ_CH false) = 0 ∧
    countAck (notified SERIAL_IRQ_CH true) ≠ 1 := by
  decide

/-- C1 (amended): on a serial-channel notification the handler itself
performs no physical acknowledgment; acknowledgment is delegated to the
registered serial_ack callback, which acknowledges the serial channel
exactly once per invocation.  The handler attempts exactly one virtual
injection per call, whether it succeeds or fails. -/
theorem notified_serial_ack_delegated (b : Bool) (v : Nat) (irq : Int) :
    countAck (notified SERIAL_IRQ_CH b) = 0 ∧
    countInject (notified SERIAL_IRQ_CH b) = 1 ∧
    countAck (serial_ack v irq ()) = 1 := by
  cases b <;> simp [notified, serial_ack, countAck, countInject]

/-- C2 counterexample: when registration fails (and boot otherwise
succeeds, entry point 1), the trace contains zero error log lines — the
registration result is assigned but never examined, so the failure is
not logged — even though the acknowledgment and guest start do occur. -/
theorem registration_failure_not_logged_counterexample :
    countLogErr (init 1 true false) = 0 ∧
    countAck (init 1 true false) = 1 ∧
    countStart (init 1 true false) = 1 := by
  decide

/-- C2 (amended): if interrupt-source registration fails during boot,
the failure is NOT logged (the return value of virq_register is
ignored); boot nevertheless continues: the proactive physical
acknowledgment is still performed and the guest virtual CPU is still
started. -/
theorem registration_failure_boot_continues (pc : Nat) (h : pc ≠ 0) :
    countLogErr (init pc true false) = 0 ∧
    countAck (init pc true false) = 1 ∧
    countStart (init pc true false) = 1 ∧
    guestStateAfter (init pc true false) = GuestState.Running := by
  have hpc : (pc == 0) = false := by simpa using h
  simp [init, countLogErr, countAck, countStart, countRegister, guestStateAfter, hpc]

/-- C2 witness: the amended claim at entry point 5. -/
theorem registration_failure_boot_continues_witness :
    countLogErr (init 5 true false) = 0 ∧
    countAck (init 5 true false) = 1 ∧
    countStart (init 5 true false) = 1 ∧
    guestStateAfter (init 5 true false) = GuestState.Running :=
  registration_failure_boot_continues 5 (by decide)

/-- C3: if the image loader returns a zero entry point, boot aborts
immediately: no controller initialization, no registration, no
acknowledgment, no guest start; exactly one error line is logged and the
guest remains Unstarted. -/
theorem zero_entry_point_aborts (ctrl_ok reg_ok : Bool) :
    countCtrlInit (init 0 ctrl_ok reg_ok) = 0 ∧
    countRegister (init 0 ctrl_ok reg_ok) = 0 ∧
    countAck (init 0 ctrl_ok reg_ok) = 0 ∧
    countStart (init 0 ctrl_ok reg_ok) = 0 ∧
    countLogErr (init 0 ctrl_ok reg_ok) = 1 ∧
    guestStateAfter (init 0 ctrl_ok reg_ok) = GuestState.Unstarted := by
  cases ctrl_ok <;> cases reg_ok <;> decide

/-- C4: the fault entry point returns the resume verdict (true) and
writes the empty message microkit_msginfo_new 0 0 into the reply
location when the dispatcher reports success, and returns the halt
verdict (false) leaving the reply location untouched when the
dispatcher reports failure. -/
theorem fault_verdict_translation (c : Nat) (m : Msginfo) :
    (fault c true m).ret = true ∧
    (fault c true m).reply = microkit_msginfo_new 0 0 ∧
    (fault c false m).ret = false ∧
    (fault c false m).reply = m := by
  simp [fault]

/-- C5: if controller initialization fails (with a nonzero entry
point), boot aborts at that step: no registration, no acknowledgment,
no guest start; exactly one error line is logged and the guest remains
Unstarted. -/
theorem controller_failure_aborts (pc : Nat) (reg_ok : Bool) (h : pc ≠ 0) :
    countRegister (init pc false reg_ok) = 0 ∧
    countAck (init pc false reg_ok) = 0 ∧
    countStart (init pc false reg_ok) = 0 ∧
    countLogErr (init pc false reg_ok) = 1 ∧
    guestStateAfter (init pc false reg_ok) = GuestState.Unstarted := by
  have hpc : (pc == 0) = false := by simpa using h
  simp [init, countRegister, countAck, countStart, countLogErr, guestStateAfter, hpc]

/-- C5 witness: controller-initialization failure at entry point 7. -/
theorem controller_failure_aborts_witness :
    countRegister (init 7 false true) = 0 ∧
    countAck (init 7 false true) = 0 ∧
    countStart (init 7 false true) = 0 ∧
    countLogErr (init 7 false true) = 1 ∧
    guestStateAfter (init 7 false true) = GuestState.Unstarted :=
  controller_failure_aborts 7 true (by decide)

/-- C8: a notification on any channel other than the serial channel is
logged (one printf of the unexpected-channel message) and nothing else
happens: no acknowledgment, no injection; the handler returns normally
with exactly that one-event trace. -/
theorem unknown_channel_logged_only (ch : Nat) (b : Bool) (h : ch ≠ SERIAL_IRQ_CH) :
    notified ch b = [Event.printf "Unexpected channel"] ∧
    countPrintf (notified ch b) = 1 ∧
    countAck (notified ch b) = 0 ∧
    countInject (notified ch b) = 0 := by
  have hch : (ch == SERIAL_IRQ_CH) = false := by simpa using h
  simp [notified, countPrintf, countAck, countInject, hch]

/-- C8 witness: the unknown-channel claim at channel 2. -/
theorem unknown_channel_logged_only_witness :
    notified 2 true = [Event.printf "Unexpected channel"] ∧
    countPrintf (notified 2 true) = 1 ∧
    countAck (notified 2 true) = 0 ∧
    countInject (notified 2 true) = 0 :=
  unknown_channel_logged_only 2 true (by decide)

/-- C9: on a boot in which image setup returns a nonzero entry point
and controller initialization succeeds, exactly one physical
acknowledgment occurs, and the full trace shows it (position 7) after
the interrupt registration (position 5) and before the guest start
(position 9), which receives the returned entry point and the DTB and
initrd guest addresses as boot arguments. -/
theorem boot_ack_once_ordered (pc : Nat) (reg_ok : Bool) (h : pc ≠ 0) :
    countAck (init pc true reg_ok) = 1 ∧
    init pc true reg_ok =
      [Event.log "starting",
       Event.log "Initialise guest images",
       Event.linux_setup_images pc,
       Event.log "Initialising the virtual GIC driver",
       Event.virq_controller_init true,
       Event.virq_register GUEST_BOOT_VCPU_ID SERIAL_IRQ reg_ok,
       Event.log "Acking interrupt",
       Event.irq_ack SERIAL_IRQ_CH,
       Event.log "Start Linux guest",
       Event.guest_start pc GUEST_DTB_VADDR GUEST_INIT_RAM_DISK_VADDR] := by
  have hpc : (pc == 0) = false := by simpa using h
  simp [init, countAck, hpc]

/-- C9 witness: the successful-boot trace at entry point 1. -/
theorem boot_ack_once_ordered_witness :
    countAck (init 1 true true) = 1 ∧
    init 1 true true =
      [Event.log "starting",
       Event.log "Initialise guest images",
       Event.linux_setup_images 1,
       Event.log "Initialising the virtual GIC driver",
       Event.virq_controller_init true,
       Event.virq_register GUEST_BOOT_VCPU_ID SERIAL_IRQ true,
       Event.log "Acking interrupt",
       Event.irq_ack SERIAL_IRQ_CH,
       Event.log "Start Linux guest",
       Event.guest_start 1 GUEST_DTB_VADDR GUEST_INIT_RAM_DISK_VADDR] :=
  boot_ack_once_ordered 1 true (by decide)

/-- C10: on the failure verdict the fault entry point leaves the
caller-provided reply location exactly as it was on entry (and returns
false); on the success verdict it overwrites it with the empty
message — so the reply location is written only on the success path. -/
theorem fault_reply_frame (c : Nat) (m : Msginfo) :
    (fault c false m).reply = m ∧
    (fault c false m).ret = false ∧
    (fault c true m).reply = microkit_msginfo_new 0 0 := by
  simp [fault]

/-- C6 counterexample: the counter is a uint64_t, so at the wraparound
point the increment resets it to 0: with the counter at 2^64 - 1, one
more invocation leaves it at 0, which is neither the old value plus one
nor larger than the old value — the counter is not monotonically
increasing and is (modulo 2^64) reset. -/
theorem fault_count_wraparound_counterexample :
    (fault (2 ^ 64 - 1) true (microkit_msginfo_new 0 0)).count = 0 ∧
    (fault (2 ^ 64 - 1) true (microkit_msginfo_new 0 0)).count ≠ 2 ^ 64 - 1 + 1 ∧
    ¬ 2 ^ 64 - 1 < (fault (2 ^ 64 - 1) true (microkit_msginfo_new 0 0)).count := by
  refine ⟨?_, ?_, ?_⟩ <;> simp [fault]

/-- C6 (amended): every invocation of the fault entry point sets the
counter to its uint64 increment, (count + 1) mod 2^64, regardless of the
verdict; hence as long as the run stays below the wraparound bound
(start + K < 2^64), K invocations increase the counter by exactly K, and
it is never otherwise reset. -/
theorem fault_count_increment (c : Nat) (r : Bool) (m : Msginfo)
    (rets : List Bool) (h : c + rets.length < 2 ^ 64) :
    (fault c r m).count = (c + 1) % 2 ^ 64 ∧
    (faultRun c rets).1 = c + rets.length := by
  refine ⟨fault_count c r m, ?_⟩
  rw [faultRun_spec rets c h]

/-- C6 witness: a three-invocation run from 0 advances the counter to
3, and a single call increments by one. -/
theorem fault_count_increment_witness :
    (fault 0 true (microkit_msginfo_new 0 0)).count = (0 + 1) % 2 ^ 64 ∧
    (faultRun 0 [true, false, true]).1 = 0 + [true, false, true].length :=
  fault_count_increment 0 true (microkit_msginfo_new 0 0) [true, false, true] (by decide)

/-- C7: starting from a zero counter, any 100000 consecutive
invocations of the fault entry point (whatever the verdicts) leave the
counter at exactly 100000 and emit exactly one liveness log line in
total; moreover every proper prefix of the run (the first k < 100000
invocations) emits zero log lines, so the single line is emitted at the
100000th event. -/
theorem hundred_thousand_faults (rets : List Bool) (k : Nat)
    (h1 : rets.length = 100000) (h2 : k < 100000) :
    (faultRun 0 rets).1 = 100000 ∧
    (faultRun 0 rets).2 = 1 ∧
    (faultRun 0 (rets.take k)).2 = 0 := by
  have hs := faultRun_spec rets 0 (by rw [h1]; norm_num)
  rw [h1] at hs
  norm_num at hs
  have hlen : (rets.take k).length = k := by
    rw [List.length_take, h1]
    omega
  have ht := faultRun_spec (rets.take k) 0 (by rw [hlen]; omega)
  rw [hlen] at ht
  norm_num at ht
  refine ⟨?_, ?_, ?_⟩
  · rw [hs]
  · rw [hs]
  · rw [ht]
    exact Nat.div_eq_of_lt h2

/-- C7 witness: a run of 100000 successful emulations, and its
99999-step prefix. -/
theorem hundred_thousand_faults_witness :
    (faultRun 0 (List.replicate 100000 true)).1 = 100000 ∧
    (faultRun 0 (List.replicate 100000 true)).2 = 1 ∧
    (faultRun 0 ((List.replicate 100000 true).take 99999)).2 = 0 :=
  hundred_thousand_faults (List.replicate 100000 true) 99999
    (by rw [List.length_replicate]) (by decide)

end Vmm
